import Mathlib

set_option maxRecDepth 8000

/-!
Shallow embedding of pgen (src/main.go), a schema compiler that decodes an
order-preserving YAML document into a Metadata model (enumerations, tables,
typed fields) and renders SQL DDL text.  Go functions become Lean functions;
Go `error` returns and Go runtime panics (failed type assertions, index out
of range) are both modelled by the `Except PErr` monad with distinct
constructors, so that "fails with message m" and "crashes" stay separate.
-/

namespace Pgen

/-- Outcome label for a failing Go computation: `msg` is an `error` value
returned by the program, `crash` is a runtime panic (failed dynamic type
assertion or out-of-range index). -/
inductive PErr where
  | msg (s : String)
  | crash
deriving DecidableEq

/-- A dynamic YAML value as go-yaml delivers it (`interface{}` /
`yaml.MapSlice`).  Mapping keys are taken to be strings, as produced by the
documents the program consumes. -/
inductive Value where
  | str (s : String)
  | int (n : Int)
  | bool (b : Bool)
  | null
  | list (xs : List Value)
  | map (xs : List (String × Value))

/-- Go type assertion to string. -/
def Value.asString : Value → Except PErr String
  | .str s => .ok s
  | _ => .error .crash

/-- Go type assertion to int. -/
def Value.asInt : Value → Except PErr Int
  | .int n => .ok n
  | _ => .error .crash

/-- Go type assertion to bool. -/
def Value.asBool : Value → Except PErr Bool
  | .bool b => .ok b
  | _ => .error .crash

/-- Go type assertion to a generic list. -/
def Value.asList : Value → Except PErr (List Value)
  | .list xs => .ok xs
  | _ => .error .crash

/-- Go type assertion to an ordered mapping. -/
def Value.asMap : Value → Except PErr (List (String × Value))
  | .map xs => .ok xs
  | _ => .error .crash

def DataTypeInteger : String := "integer"
def DataTypeBigint : String := "bigint"
def DataTypeVarchar : String := "varchar"
def DataTypeBool : String := "bool"
def DataTypeTime : String := "time"
def DataTypeTimestamptz : String := "timestamptz"
def DataTypeSerial : String := "serial"
def DataTypeDouble : String := "float8"
def DataTypeText : String := "text"

/-- Source struct `Type` (renamed `Typ`: `Type` is reserved in Lean). -/
structure Typ where
  T : String
  IsEnum : Bool
deriving DecidableEq

structure Enum where
  Name : String
  Comment : String
  Values : List String
deriving DecidableEq

/-- Source struct `Field`; the source field `Type` is spelled `Ty` here. -/
structure Field where
  Name : String
  Ty : Typ
  Comment : String
  Nullable : Bool
  Default : Option Value
  Size : Int
  PK : Bool

abbrev Index := List String

structure Table where
  DB : String
  Name : String
  Comment : String
  Fields : List Field
  Indexes : List Index
  Uniques : List Index

structure Metadata where
  Enums : List Enum
  Tables : List Table

/-- Source `parser.parseDataType`: the fixed token table, then lookup of the token
among the enumerations built so far (Go's `switch` is a sequence of string
comparisons, rendered here as an if-chain). -/
def parseDataType (enums : List Enum) (t : String) : Except PErr Typ :=
  if t = "i32" then .ok ⟨DataTypeInteger, false⟩
  else if t = "i64" then .ok ⟨DataTypeBigint, false⟩
  else if t = "str" then .ok ⟨DataTypeVarchar, false⟩
  else if t = "bool" then .ok ⟨DataTypeBool, false⟩
  else if t = "t" then .ok ⟨DataTypeTime, false⟩
  else if t = "tsz" then .ok ⟨DataTypeTimestamptz, false⟩
  else if t = "double" then .ok ⟨DataTypeDouble, false⟩
  else if t = "text" ∨ t = "serial" ∨ t = "jsonb" then .ok ⟨t, false⟩
  else if enums.any (fun e => e.Name == t) then .ok ⟨t, true⟩
  else .error (.msg ("invalid data type: " ++ t))

/-- Go `val.(string)` over a list, aborting at the first non-string. -/
def asStrings : List Value → Except PErr (List String)
  | [] => .ok []
  | v :: rest =>
    match v.asString with
    | .error er => .error er
    | .ok s =>
      match asStrings rest with
      | .error er => .error er
      | .ok ss => .ok (s :: ss)

/-- One iteration of the attribute loop in `parser.parseEnum`. -/
def parseEnumAttr (e : Enum) (attr : String × Value) : Except PErr Enum :=
  if attr.1 = "comment" then
    match attr.2.asString with
    | .error er => .error er
    | .ok s => .ok { e with Comment := s }
  else if attr.1 = "value" then
    match attr.2 with
    | .null => .error (.msg ("enum " ++ e.Name ++ " should have at least one value"))
    | v =>
      match v.asList with
      | .error er => .error er
      | .ok xs =>
        match asStrings xs with
        | .error er => .error er
        | .ok vs => .ok { e with Values := e.Values ++ vs }
  else .ok e

/-- The attribute loop of `parser.parseEnum`. -/
def parseEnumAttrs : Enum → List (String × Value) → Except PErr Enum
  | e, [] => .ok e
  | e, attr :: rest =>
    match parseEnumAttr e attr with
    | .error er => .error er
    | .ok e2 => parseEnumAttrs e2 rest

/-- Source `parser.parseEnum`: builds an `Enum` from one document entry. -/
def parseEnum (s : String × Value) : Except PErr Enum :=
  match s.2.asMap with
  | .error er => .error er
  | .ok attrs => parseEnumAttrs { Name := s.1, Comment := "", Values := [] } attrs

/-- Inner loop of `parser.parseIndexes`: each element is asserted to be a
list of strings. -/
def indexesOf : List Value → Except PErr (List Index)
  | [] => .ok []
  | v :: rest =>
    match v.asList with
    | .error er => .error er
    | .ok ys =>
      match asStrings ys with
      | .error er => .error er
      | .ok index =>
        match indexesOf rest with
        | .error er => .error er
        | .ok indexes => .ok (index :: indexes)

/-- Source `parser.parseIndexes`. -/
def parseIndexes (v : Value) : Except PErr (List Index) :=
  match v with
  | .null => .ok []
  | v =>
    match v.asList with
    | .error er => .error er
    | .ok xs => indexesOf xs

/-- One iteration of the attribute loop in `parser.parseField` (the
attributes after the leading type entry). -/
def parseFieldAttr (f : Field) (item : String × Value) : Except PErr Field :=
  if item.1 = "default" then
    if f.Ty.T = DataTypeVarchar ∨ f.Ty.T = DataTypeInteger ∨ f.Ty.T = DataTypeBigint
        ∨ f.Ty.T = DataTypeBool ∨ f.Ty.T = DataTypeDouble ∨ f.Ty.T = DataTypeText then
      .ok { f with Default := some item.2 }
    else if f.Ty.T = DataTypeTimestamptz then
      match item.2.asString with
      | .error er => .error er
      | .ok val =>
        if val ≠ "now" then
          .error (.msg (f.Name ++ ": invalid default value '" ++ val ++ "'"))
        else .ok { f with Default := some (.str "current_timestamp") }
    else if f.Ty.IsEnum then .ok f
    else .error (.msg (f.Name ++ ": data type '" ++ f.Ty.T ++ "' can not have 'default' attribute"))
  else if item.1 = "size" then
    if f.Ty.T = DataTypeVarchar then
      match item.2.asInt with
      | .error er => .error er
      | .ok n => .ok { f with Size := n }
    else .error (.msg (f.Name ++ ": data type '" ++ f.Ty.T ++ "' can not have 'size' attribute"))
  else if item.1 = "comment" then
    match item.2.asString with
    | .error er => .error er
    | .ok s => .ok { f with Comment := s }
  else if item.1 = "nullable" then
    match item.2.asBool with
    | .error er => .error er
    | .ok b => .ok { f with Nullable := b }
  else if item.1 = "pk" then
    if f.Ty.T = DataTypeInteger ∨ f.Ty.T = DataTypeBigint ∨ f.Ty.T = DataTypeSerial then
      match item.2.asBool with
      | .error er => .error er
      | .ok b => .ok { f with PK := b }
    else .error (.msg (f.Name ++ ": primary key must be integer, bigint, serial"))
  else .error (.msg (f.Name ++ ": invalid attribute: " ++ item.1))

/-- The attribute loop of `parser.parseField`. -/
def parseFieldAttrs : Field → List (String × Value) → Except PErr Field
  | f, [] => .ok f
  | f, item :: rest =>
    match parseFieldAttr f item with
    | .error er => .error er
    | .ok f2 => parseFieldAttrs f2 rest

/-- The end-of-build validation of `parser.parseField`. -/
def validateField (f : Field) : Except PErr Field :=
  if f.Ty.T = DataTypeVarchar ∧ f.Size = 0 then
    .error (.msg (f.Name ++ " should have size. if size is not a consideration, 'text' should be used"))
  else if f.PK = true ∧ f.Nullable = true then
    .error (.msg (f.Name ++ ": primary key can not be nullable"))
  else .ok f

/-- Source `parser.parseField`: one column specification (a mapping whose first
entry is name ↦ type token) to a `Field`. -/
def parseField (enums : List Enum) (inv : Value) : Except PErr Field :=
  match inv.asMap with
  | .error er => .error er
  | .ok [] => .error .crash
  | .ok ((k, v) :: rest) =>
    match v.asString with
    | .error er => .error er
    | .ok ts =>
      match parseDataType enums ts with
      | .error er => .error er
      | .ok t =>
        match parseFieldAttrs
            { Name := k, Ty := t, Comment := "", Nullable := false,
              Default := none, Size := 0, PK := false } rest with
        | .error er => .error er
        | .ok f => validateField f

/-- The `fields` loop of `parser.parseTable`. -/
def parseFieldList (enums : List Enum) : List Value → Except PErr (List Field)
  | [] => .ok []
  | v :: rest =>
    match parseField enums v with
    | .error er => .error er
    | .ok f =>
      match parseFieldList enums rest with
      | .error er => .error er
      | .ok fs => .ok (f :: fs)

/-- One iteration of the attribute loop in `parser.parseTable`; unknown keys
fall through Go's `switch` with no `default` case and are ignored. -/
def parseTableAttr (enums : List Enum) (t : Table) (attr : String × Value) : Except PErr Table :=
  if attr.1 = "db" then
    match attr.2.asString with
    | .error er => .error er
    | .ok s => .ok { t with DB := s }
  else if attr.1 = "comment" then
    match attr.2.asString with
    | .error er => .error er
    | .ok s => .ok { t with Comment := s }
  else if attr.1 = "fields" then
    match attr.2 with
    | .null => .ok t
    | v =>
      match v.asList with
      | .error er => .error er
      | .ok xs =>
        match parseFieldList enums xs with
        | .error er => .error er
        | .ok fs => .ok { t with Fields := t.Fields ++ fs }
  else if attr.1 = "uniques" then
    match parseIndexes attr.2 with
    | .error er => .error er
    | .ok is => .ok { t with Uniques := is }
  else if attr.1 = "indexes" then
    match parseIndexes attr.2 with
    | .error er => .error er
    | .ok is => .ok { t with Indexes := is }
  else .ok t

/-- The attribute loop of `parser.parseTable`. -/
def parseTableAttrs (enums : List Enum) : Table → List (String × Value) → Except PErr Table
  | t, [] => .ok t
  | t, attr :: rest =>
    match parseTableAttr enums t attr with
    | .error er => .error er
    | .ok t2 => parseTableAttrs enums t2 rest

/-- Source `parser.parseTable`: one document entry to a `Table`; after the
attribute loop, `db` must have been provided. -/
def parseTable (enums : List Enum) (s : String × Value) : Except PErr Table :=
  match s.2.asMap with
  | .error er => .error er
  | .ok attrs =>
    match parseTableAttrs enums
        { DB := "", Name := s.1, Comment := "", Fields := [],
          Indexes := [], Uniques := [] } attrs with
    | .error er => .error er
    | .ok t =>
      if t.DB = "" then .error (.msg (s.1 ++ ": db should be provided"))
      else .ok t

/-- The per-entry structural check of the closure inside `parser.parse`:
empty attribute lists are skipped (`none`), the first attribute must be
literally `type`, and its value (asserted to string) is the discriminator. -/
def entryType (s : String × Value) : Except PErr (Option String) :=
  match s.2.asMap with
  | .error er => .error er
  | .ok [] => .ok none
  | .ok ((k, v) :: _) =>
    if k ≠ "type" then .error (.msg (s.1 ++ ": the first attribute must be 'type'"))
    else
      match v.asString with
      | .error er => .error er
      | .ok tv => .ok (some tv)

/-- Pass 1 of `parser.parse`: build every entry whose discriminator is
`enum`, in declaration order. -/
def parseEnums : List (String × Value) → List Enum → Except PErr (List Enum)
  | [], acc => .ok acc
  | s :: rest, acc =>
    match entryType s with
    | .error er => .error er
    | .ok none => parseEnums rest acc
    | .ok (some tv) =>
      if tv = "enum" then
        match parseEnum s with
        | .error er => .error er
        | .ok e => parseEnums rest (acc ++ [e])
      else parseEnums rest acc

/-- Pass 2 of `parser.parse`: build every entry whose discriminator is
`table`, in declaration order, resolving types against all enums of pass 1. -/
def parseTables (enums : List Enum) : List (String × Value) → List Table → Except PErr (List Table)
  | [], acc => .ok acc
  | s :: rest, acc =>
    match entryType s with
    | .error er => .error er
    | .ok none => parseTables enums rest acc
    | .ok (some tv) =>
      if tv = "table" then
        match parseTable enums s with
        | .error er => .error er
        | .ok t => parseTables enums rest (acc ++ [t])
      else parseTables enums rest acc

/-- Source `parser.parse`: two passes over the same ordered document, enums first,
tables second. -/
def parse (raw : List (String × Value)) : Except PErr Metadata :=
  match parseEnums raw [] with
  | .error er => .error er
  | .ok enums =>
    match parseTables enums raw [] with
    | .error er => .error er
    | .ok tables => .ok ⟨enums, tables⟩

/-!
The renderer (`render` and the `gen` buffer in src/main.go).  The `gen`
buffer only ever appends, so a chained call sequence is modelled as pure
string concatenation threaded through the loops; the type-assertion casts
of stored `default` values keep the renderer inside `Except PErr`.
-/

/-- The `default` clause of one column (`render`, per-type cast of
`f.Default`). -/
def renderDefault (f : Field) : Except PErr String :=
  match f.Default with
  | none => .ok ""
  | some v =>
    if f.Ty.T = DataTypeVarchar then
      match v.asString with
      | .error er => .error er
      | .ok s => .ok (" default '" ++ s ++ "'")
    else if f.Ty.T = DataTypeTimestamptz then
      match v.asString with
      | .error er => .error er
      | .ok s => .ok (" default " ++ s)
    else if f.Ty.T = DataTypeInteger ∨ f.Ty.T = DataTypeBigint then
      match v.asInt with
      | .error er => .error er
      | .ok n => .ok (" default " ++ toString n)
    else if f.Ty.T = DataTypeBool then
      match v.asBool with
      | .error er => .error er
      | .ok b => .ok (" default " ++ toString b)
    else if f.Ty.IsEnum then
      match v.asString with
      | .error er => .error er
      | .ok s => .ok (" default '" ++ s ++ "'")
    else .ok ""

/-- Name, SQL type, optional size clause and optional default clause of one
column. -/
def renderFieldCore (f : Field) : Except PErr String :=
  match renderDefault f with
  | .error er => .error er
  | .ok d =>
    .ok ("  " ++ f.Name ++ " " ++ f.Ty.T
      ++ (if f.Size > 0 ∧ f.Ty.T = DataTypeVarchar then "(" ++ toString f.Size ++ ")" else "")
      ++ d)

/-- One column line of the `create table` statement; `isLast` suppresses the
trailing comma. -/
def renderField (f : Field) (isLast : Bool) : Except PErr String :=
  match renderFieldCore f with
  | .error er => .error er
  | .ok core =>
    .ok (core
      ++ (if f.Nullable = false ∧ f.PK = false then " not null" else "")
      ++ (if f.PK = true then " primary key" else "")
      ++ (if isLast then "" else ",")
      ++ "\n")

/-- The column loop of the table statement (comma after every column but the
last). -/
def renderFields : List Field → Except PErr String
  | [] => .ok ""
  | [f] => renderField f true
  | f :: g :: rest =>
    match renderField f false with
    | .error er => .error er
    | .ok s =>
      match renderFields (g :: rest) with
      | .error er => .error er
      | .ok t => .ok (s ++ t)

/-- One `create unique index` statement. -/
def uniqueIndexText (tname : String) (index : Index) : String :=
  "create unique index " ++ tname ++ "_" ++ String.intercalate "_" index
    ++ "_key on " ++ tname ++ " (" ++ String.intercalate ", " index ++ ");\n"

/-- One `create index` statement. -/
def secondaryIndexText (tname : String) (index : Index) : String :=
  "create index " ++ tname ++ "_" ++ String.intercalate "_" index
    ++ "_idx on " ++ tname ++ " (" ++ String.intercalate ", " index ++ ");\n"

/-- One `comment on column` statement (empty for a field without comment). -/
def fieldCommentText (tname : String) (f : Field) : String :=
  if f.Comment = "" then ""
  else "comment on column " ++ tname ++ "." ++ f.Name ++ " is '" ++ f.Comment ++ "';\n"

/-- Everything `render` emits for one table: DDL, unique indexes, secondary
indexes, table comment, column comments. -/
def renderTableEntry (t : Table) : Except PErr String :=
  match renderFields t.Fields with
  | .error er => .error er
  | .ok fs =>
    .ok ("create table if not exists " ++ t.Name ++ " (\n" ++ fs ++ ");\n"
      ++ String.join (t.Uniques.map (uniqueIndexText t.Name))
      ++ String.join (t.Indexes.map (secondaryIndexText t.Name))
      ++ (if t.Comment = "" then "" else "comment on table " ++ t.Name ++ " is '" ++ t.Comment ++ "';\n")
      ++ String.join (t.Fields.map (fieldCommentText t.Name)))

/-- Everything `render` emits for one enumeration: the `create type`
statement and the optional type comment. -/
def renderEnumEntry (e : Enum) : String :=
  "create type " ++ e.Name ++ " as enum("
    ++ String.intercalate ", " (e.Values.map (fun v => "'" ++ v ++ "'")) ++ ");\n"
    ++ (if e.Comment = "" then "" else "comment on type " ++ e.Name ++ " is '" ++ e.Comment ++ "';\n")

/-- The enumeration loop of `render`: entries with no values are skipped;
a separating newline is emitted for every rendered entry whose index `i` in
the declaration list satisfies `i > 0`. -/
def renderEnumsFrom : Nat → List Enum → String → String
  | _, [], g => g
  | i, e :: rest, g =>
    if e.Values = [] then renderEnumsFrom (i + 1) rest g
    else renderEnumsFrom (i + 1) rest
      ((if i > 0 then g ++ "\n" else g) ++ renderEnumEntry e)

/-- The table loop of `render`: tables with no fields are skipped; the
separating-newline on declaration index `i > 0` mirrors the enum loop. -/
def renderTablesFrom : Nat → List Table → String → Except PErr String
  | _, [], g => .ok g
  | i, t :: rest, g =>
    if t.Fields.isEmpty then renderTablesFrom (i + 1) rest g
    else
      match renderTableEntry t with
      | .error er => .error er
      | .ok e => renderTablesFrom (i + 1) rest ((if i > 0 then g ++ "\n" else g) ++ e)

/-- Source `render`: header, enum section, table section, all appended to one
fresh buffer. -/
def render (data : Metadata) : Except PErr String :=
  renderTablesFrom 0 data.Tables
    (renderEnumsFrom 0 data.Enums
      "-- Auto generated by pgen, DO NOT MODIFY.\n\n-- Enums\n\n"
      ++ "\n-- Tables\n\n")

/-!
Spec-side definitions, used only to state claims against the code:
`declaresEnum` mirrors the spec's "entry whose first attribute is `type` =
`enum`", `fixedTokens` the fixed token table of the Type Registry, and
`specSeparated` the spec's "separated by a blank line between entries (but
not before the first)".
-/

/-- An entry value that declares an enumeration (first attribute is
literally `type: enum`). -/
def declaresEnum : Value → Bool
  | .map (("type", .str "enum") :: _) => true
  | _ => false

/-- The fixed type-token table of the Type Registry. -/
def fixedTokens : List String :=
  ["i32", "i64", "str", "bool", "t", "tsz", "double", "text", "serial", "jsonb"]

/-- Concatenation with one extra newline before every element. -/
def joinAllSep : List String → String
  | [] => ""
  | x :: xs => "\n" ++ x ++ joinAllSep xs

/-- Spec-side separator law: entry texts joined with one extra newline
between consecutive entries and nothing before the first (each entry text
already ends in a newline, so the extra newline is a blank line). -/
def specSeparated : List String → String
  | [] => ""
  | x :: xs => x ++ joinAllSep xs

/-- Spec-side: the entry texts of the enumerations the renderer keeps
(those with at least one value), in declaration order — skipped
enumerations may sit anywhere in the list. -/
def renderedEnumTexts (es : List Enum) : List String :=
  (es.filter (fun e => !e.Values.isEmpty)).map renderEnumEntry

/-- Spec-side: the entry texts of the tables the renderer keeps (those with
at least one field), in declaration order — skipped tables may sit anywhere
in the list; entry errors propagate exactly like in the render loop. -/
def renderedTableEntries : List Table → Except PErr (List String)
  | [] => .ok []
  | t :: rest =>
    if t.Fields.isEmpty then renderedTableEntries rest
    else
      match renderTableEntry t with
      | .error er => .error er
      | .ok s =>
        match renderedTableEntries rest with
        | .error er => .error er
        | .ok ss => .ok (s :: ss)

/-!
Helper lemmas shared by several claims.
-/

/-- The end-of-build validation of `parseField` returns its input unchanged
and certifies the two cross-attribute invariants. -/
theorem validateField_ok {f g : Field} (h : validateField f = .ok g) :
    g = f ∧ ¬(f.Ty.T = DataTypeVarchar ∧ f.Size = 0) ∧ (f.PK = true → f.Nullable = false) := by
  unfold validateField at h
  split at h
  · exact absurd h (by simp)
  · split at h
    · exact absurd h (by simp)
    · rename_i h1 h2
      refine ⟨by injection h with h; exact h.symm, h1, ?_⟩
      intro hpk
      by_contra hn
      exact h2 ⟨hpk, by simpa using hn⟩

/-- A successfully built field is exactly the output of the end-of-build
validation. -/
theorem parseField_ok_validate {enums : List Enum} {v : Value} {f : Field}
    (h : parseField enums v = .ok f) : ∃ g, validateField g = .ok f := by
  unfold parseField at h
  split at h
  · exact absurd h (by simp)
  · exact absurd h (by simp)
  · split at h
    · exact absurd h (by simp)
    · split at h
      · exact absurd h (by simp)
      · split at h
        · exact absurd h (by simp)
        · exact ⟨_, h⟩

/-!
C2 — a primary-key field is never nullable, the conflict is reported with
the `primary key can not be nullable` message in either attribute order, and
only after the whole attribute list has been consumed (a later invalid
attribute still wins).
-/

/-- C2: every successfully built Field with `isPrimaryKey` true has
`nullable` false; a column spec carrying both `pk: true` and
`nullable: true` fails with `primary key can not be nullable` in either
attribute order, and the conflict is only detected after the whole
attribute list is consumed (an invalid attribute later in the list is
reported instead). -/
theorem C2_pk_not_nullable :
    (∀ (enums : List Enum) (v : Value) (f : Field),
        parseField enums v = .ok f → f.PK = true → f.Nullable = false)
    ∧ parseField [] (.map [("id", .str "i32"), ("pk", .bool true), ("nullable", .bool true)])
        = .error (.msg "id: primary key can not be nullable")
    ∧ parseField [] (.map [("id", .str "i32"), ("nullable", .bool true), ("pk", .bool true)])
        = .error (.msg "id: primary key can not be nullable")
    ∧ parseField [] (.map [("id", .str "i32"), ("pk", .bool true), ("nullable", .bool true),
                           ("foo", .null)])
        = .error (.msg "id: invalid attribute: foo") := by
  refine ⟨?_, rfl, rfl, rfl⟩
  intro enums v f h hpk
  obtain ⟨g, hg⟩ := parseField_ok_validate h
  obtain ⟨hgf, _, himp⟩ := validateField_ok hg
  subst hgf
  exact himp hpk

/-- C2 witness: a concrete primary-key field builds successfully and the
theorem yields `Nullable = false` for it. -/
theorem C2_witness :
    parseField [] (.map [("id", .str "i32"), ("pk", .bool true)])
      = .ok ⟨"id", ⟨"integer", false⟩, "", false, none, 0, true⟩
    ∧ (Field.mk "id" ⟨"integer", false⟩ "" false none 0 true).Nullable = false :=
  ⟨rfl, C2_pk_not_nullable.1 [] (.map [("id", .str "i32"), ("pk", .bool true)])
    ⟨"id", ⟨"integer", false⟩, "", false, none, 0, true⟩ rfl rfl⟩

/-!
C3 — the varchar size invariant.  The code only rejects `Size = 0` after
the attribute loop, and `parseFieldAttr` stores the supplied integer
without a sign check, so a negative size is accepted: the invariant that
actually holds is `Size ≠ 0`, not `Size > 0`.
-/

/-- C3 counterexample: a varchar column with `size: -5` builds successfully
with a non-positive size, refuting `size > 0`. -/
theorem C3_counterexample :
    parseField [] (.map [("name", .str "str"), ("size", .int (-5))])
      = .ok ⟨"name", ⟨"varchar", false⟩, "", false, none, -5, false⟩
    ∧ ¬((-5 : Int) > 0) := ⟨rfl, by decide⟩

/-- C3 (amended): every successfully built varchar Field has a nonzero
size; a varchar column that never receives a size fails with the
`should have size` error, and a `size` attribute on a non-varchar type
fails with `can not have 'size' attribute`. -/
theorem C3_varchar_size :
    (∀ (enums : List Enum) (v : Value) (f : Field),
        parseField enums v = .ok f → f.Ty.T = DataTypeVarchar → f.Size ≠ 0)
    ∧ parseField [] (.map [("name", .str "str")])
        = .error (.msg "name should have size. if size is not a consideration, 'text' should be used")
    ∧ parseField [] (.map [("x", .str "i32"), ("size", .int 5)])
        = .error (.msg "x: data type 'integer' can not have 'size' attribute") := by
  refine ⟨?_, rfl, rfl⟩
  intro enums v f h hvc hz
  obtain ⟨g, hg⟩ := parseField_ok_validate h
  obtain ⟨hgf, hno, _⟩ := validateField_ok hg
  subst hgf
  exact hno ⟨hvc, hz⟩

/-- C3 witness: a concrete varchar field with `size: 64` builds and the
theorem yields a nonzero size for it. -/
theorem C3_witness :
    parseField [] (.map [("name", .str "str"), ("size", .int 64)])
      = .ok ⟨"name", ⟨"varchar", false⟩, "", false, none, 64, false⟩
    ∧ (Field.mk "name" ⟨"varchar", false⟩ "" false none 64 false).Size ≠ 0 :=
  ⟨rfl, C3_varchar_size.1 [] (.map [("name", .str "str"), ("size", .int 64)])
    ⟨"name", ⟨"varchar", false⟩, "", false, none, 64, false⟩ rfl rfl⟩

/-!
C4 — the enum `value` attribute.  The builder only raises the
`should have at least one value` error when a `value` attribute is present
and null; an absent `value`, or an empty sequence, silently yields an
enumeration with zero values (which the renderer later skips).
-/

/-- C4 counterexample: an enumeration entry without any `value` attribute,
and one whose `value` is an empty sequence, both build successfully with
zero values, refuting the claim that absence or emptiness fails. -/
theorem C4_counterexample :
    parseEnum ("color", .map [("type", .str "enum")]) = .ok ⟨"color", "", []⟩
    ∧ parseEnum ("shade", .map [("type", .str "enum"), ("value", .list [])])
        = .ok ⟨"shade", "", []⟩ := ⟨rfl, rfl⟩

/-- C4 (amended): building an enumeration fails with
`enum <name> should have at least one value` exactly when a `value`
attribute is present with a null value; an absent `value` attribute, or an
empty sequence, leaves the value list empty and succeeds. -/
theorem C4_enum_value :
    (∀ e : Enum, parseEnumAttr e ("value", .null)
        = .error (.msg ("enum " ++ e.Name ++ " should have at least one value")))
    ∧ (∀ e : Enum, parseEnumAttr e ("value", .list []) = .ok e)
    ∧ (∀ (attrs : List (String × Value)) (e g : Enum),
        (∀ a ∈ attrs, a.1 ≠ "value") → parseEnumAttrs e attrs = .ok g →
        g.Values = e.Values) := by
  refine ⟨fun e => rfl, fun e => by simp [parseEnumAttr, Value.asList, asStrings], ?_⟩
  intro attrs
  induction attrs with
  | nil =>
    intro e g _ h
    injection h with h
    rw [← h]
  | cons a rest ih =>
    intro e g hk h
    unfold parseEnumAttrs at h
    split at h
    · exact absurd h (by simp)
    · rename_i e2 ha
      have hv : e2.Values = e.Values := by
        have hne : a.1 ≠ "value" := hk a (List.mem_cons_self a rest)
        unfold parseEnumAttr at ha
        by_cases hc : a.1 = "comment"
        · rw [if_pos hc] at ha
          split at ha
          · exact absurd ha (by simp)
          · injection ha with ha; rw [← ha]
        · rw [if_neg hc, if_neg hne] at ha
          injection ha with ha; rw [← ha]
      rw [ih e2 g (fun x hx => hk x (List.mem_cons_of_mem a hx)) h, hv]

/-- C4 witness: the null-value failure and the value-preservation of a
value-free attribute list, at concrete inputs. -/
theorem C4_witness :
    parseEnumAttr ⟨"c", "", []⟩ ("value", .null)
      = .error (.msg "enum c should have at least one value")
    ∧ parseEnumAttr ⟨"d", "x", ["a"]⟩ ("value", .list []) = .ok ⟨"d", "x", ["a"]⟩
    ∧ (Enum.mk "c" "hi" []).Values = (Enum.mk "c" "" []).Values :=
  ⟨C4_enum_value.1 ⟨"c", "", []⟩, C4_enum_value.2.1 ⟨"d", "x", ["a"]⟩,
   C4_enum_value.2.2 [("comment", .str "hi")] ⟨"c", "", []⟩ ⟨"c", "hi", []⟩
     (by intro a ha; simp at ha; rw [ha]; decide) rfl⟩

/-!
C5 — timestamptz defaults.  The only accepted string is `now`, normalized
to `current_timestamp` and rendered unquoted; but a non-string `default`
value hits the `item.Value.(string)` type assertion, so it crashes instead
of producing the `invalid default value` error.
-/

/-- C5 counterexample: a timestamptz column whose `default` is the integer
literal 5 crashes on the string type assertion instead of failing with the
`invalid default value` error. -/
theorem C5_counterexample :
    parseField [] (.map [("created", .str "tsz"), ("default", .int 5)]) = .error .crash
    ∧ (PErr.crash ≠ .msg "created: invalid default value '5'") := ⟨rfl, by decide⟩

/-- C5 (amended): for a timestamptz field, a `default` attribute succeeds
exactly on the string literal `now`, storing the normalized
`current_timestamp` marker which renders unquoted; any other string fails
with `invalid default value`, and a non-string default value crashes on a
type assertion. -/
theorem C5_tsz_default :
    (∀ f : Field, f.Ty.T = DataTypeTimestamptz →
        parseFieldAttr f ("default", .str "now")
          = .ok { f with Default := some (.str "current_timestamp") })
    ∧ (∀ (f : Field) (s : String), f.Ty.T = DataTypeTimestamptz → s ≠ "now" →
        parseFieldAttr f ("default", .str s)
          = .error (.msg (f.Name ++ ": invalid default value '" ++ s ++ "'")))
    ∧ parseField [] (.map [("created", .str "tsz"), ("default", .str "yesterday")])
        = .error (.msg "created: invalid default value 'yesterday'")
    ∧ parseField [] (.map [("created", .str "tsz"), ("default", .str "now")])
        = .ok ⟨"created", ⟨"timestamptz", false⟩, "", false, some (.str "current_timestamp"), 0, false⟩
    ∧ renderField ⟨"created", ⟨"timestamptz", false⟩, "", false,
        some (.str "current_timestamp"), 0, false⟩ true
        = .ok "  created timestamptz default current_timestamp not null\n" := by
  refine ⟨?_, ?_, rfl, rfl, rfl⟩
  · intro f h
    simp [parseFieldAttr, h, DataTypeTimestamptz, DataTypeVarchar, DataTypeInteger,
      DataTypeBigint, DataTypeBool, DataTypeDouble, DataTypeText, Value.asString]
  · intro f s h hs
    simp [parseFieldAttr, h, hs, DataTypeTimestamptz, DataTypeVarchar, DataTypeInteger,
      DataTypeBigint, DataTypeBool, DataTypeDouble, DataTypeText, Value.asString]

/-- C5 witness: the two universally quantified parts of the theorem applied
at a concrete timestamptz field. -/
theorem C5_witness :
    parseFieldAttr ⟨"c", ⟨"timestamptz", false⟩, "", false, none, 0, false⟩ ("default", .str "now")
      = .ok ⟨"c", ⟨"timestamptz", false⟩, "", false, some (.str "current_timestamp"), 0, false⟩
    ∧ parseFieldAttr ⟨"c", ⟨"timestamptz", false⟩, "", false, none, 0, false⟩
        ("default", .str "yesterday")
      = .error (.msg "c: invalid default value 'yesterday'") :=
  ⟨C5_tsz_default.1 ⟨"c", ⟨"timestamptz", false⟩, "", false, none, 0, false⟩ rfl,
   C5_tsz_default.2.1 ⟨"c", ⟨"timestamptz", false⟩, "", false, none, 0, false⟩ "yesterday"
     rfl (by decide)⟩

/-!
C6 — the `not null` / `primary key` clauses of a rendered column.
-/

/-- C6: in every rendered column line the `not null` clause appears exactly
when the field is neither nullable nor primary key, followed by
`primary key` when the pk flag is set; the field built from
`age: i32, pk: true` renders end-to-end as `age integer primary key` with
no `not null` clause. -/
theorem C6_not_null_clause :
    (∀ (f : Field) (isLast : Bool) (s : String),
        renderField f isLast = .ok s →
        ∃ core, renderFieldCore f = .ok core ∧
          s = core ++ (if f.Nullable = false ∧ f.PK = false then " not null" else "")
            ++ (if f.PK = true then " primary key" else "")
            ++ (if isLast = true then "" else ",") ++ "\n")
    ∧ parseField [] (.map [("age", .str "i32"), ("pk", .bool true)])
        = .ok ⟨"age", ⟨"integer", false⟩, "", false, none, 0, true⟩
    ∧ render ⟨[], [⟨"main", "person", "",
        [⟨"age", ⟨"integer", false⟩, "", false, none, 0, true⟩], [], []⟩]⟩
        = .ok "-- Auto generated by pgen, DO NOT MODIFY.\n\n-- Enums\n\n\n-- Tables\n\ncreate table if not exists person (\n  age integer primary key\n);\n" := by
  refine ⟨?_, rfl, rfl⟩
  intro f isLast s h
  unfold renderField at h
  split at h
  · exact absurd h (by simp)
  · rename_i core hcore
    refine ⟨core, hcore, ?_⟩
    injection h with h
    rw [← h]

/-- C6 witness: the clause decomposition applied to the concrete pk field,
whose rendered line carries `primary key` and no `not null`. -/
theorem C6_witness :
    ∃ core, renderFieldCore ⟨"age", ⟨"integer", false⟩, "", false, none, 0, true⟩ = .ok core ∧
      "  age integer primary key\n"
        = core ++ (if (false = false ∧ true = false : Prop) then " not null" else "")
          ++ (if (true = true : Prop) then " primary key" else "")
          ++ (if (true = true : Prop) then "" else ",") ++ "\n" :=
  C6_not_null_clause.1 ⟨"age", ⟨"integer", false⟩, "", false, none, 0, true⟩ true
    "  age integer primary key\n" rfl

/-!
C9 — level asymmetry for unknown attribute keys: silently ignored on
tables, an `invalid attribute` error on fields.
-/

/-- C9: an attribute key outside `db`, `comment`, `fields`, `uniques`,
`indexes` is silently ignored by the table builder (removing it does not
change the result), while a field-attribute key outside `default`, `size`,
`comment`, `nullable`, `pk` makes the field attribute loop fail immediately
with `invalid attribute` naming the key. -/
theorem C9_unknown_attr_asymmetry :
    (∀ (enums : List Enum) (t : Table) (k : String) (v : Value),
        k ≠ "db" → k ≠ "comment" → k ≠ "fields" → k ≠ "uniques" → k ≠ "indexes" →
        parseTableAttr enums t (k, v) = .ok t)
    ∧ (∀ (enums : List Enum) (t0 : Table) (pre post : List (String × Value))
          (k : String) (v : Value),
        k ≠ "db" → k ≠ "comment" → k ≠ "fields" → k ≠ "uniques" → k ≠ "indexes" →
        parseTableAttrs enums t0 (pre ++ (k, v) :: post) = parseTableAttrs enums t0 (pre ++ post))
    ∧ (∀ (f : Field) (k : String) (v : Value) (rest : List (String × Value)),
        k ≠ "default" → k ≠ "size" → k ≠ "comment" → k ≠ "nullable" → k ≠ "pk" →
        parseFieldAttrs f ((k, v) :: rest)
          = .error (.msg (f.Name ++ ": invalid attribute: " ++ k))) := by
  have hstep : ∀ (enums : List Enum) (t : Table) (k : String) (v : Value),
      k ≠ "db" → k ≠ "comment" → k ≠ "fields" → k ≠ "uniques" → k ≠ "indexes" →
      parseTableAttr enums t (k, v) = .ok t := by
    intro enums t k v h1 h2 h3 h4 h5
    unfold parseTableAttr
    rw [if_neg h1, if_neg h2, if_neg h3, if_neg h4, if_neg h5]
  refine ⟨hstep, ?_, ?_⟩
  · intro enums t0 pre post k v h1 h2 h3 h4 h5
    induction pre generalizing t0 with
    | nil =>
      simp only [List.nil_append]
      conv_lhs => unfold parseTableAttrs
      rw [hstep enums t0 k v h1 h2 h3 h4 h5]
    | cons a pre ih =>
      simp only [List.cons_append]
      conv_lhs => unfold parseTableAttrs
      conv_rhs => unfold parseTableAttrs
      cases parseTableAttr enums t0 a with
      | error er => rfl
      | ok t2 => exact ih t2
  · intro f k v rest h1 h2 h3 h4 h5
    unfold parseFieldAttrs parseFieldAttr
    rw [if_neg h1, if_neg h2, if_neg h3, if_neg h4, if_neg h5]

/-- C9 witness: both halves of the asymmetry at the key `owner`. -/
theorem C9_witness :
    parseTableAttrs [] ⟨"", "t", "", [], [], []⟩ [("owner", .str "me"), ("db", .str "m")]
      = parseTableAttrs [] ⟨"", "t", "", [], [], []⟩ [("db", .str "m")]
    ∧ parseFieldAttrs ⟨"f", ⟨"integer", false⟩, "", false, none, 0, false⟩ [("owner", .str "me")]
      = .error (.msg "f: invalid attribute: owner") :=
  ⟨C9_unknown_attr_asymmetry.2.1 [] ⟨"", "t", "", [], [], []⟩ [] [("db", .str "m")]
      "owner" (.str "me") (by decide) (by decide) (by decide) (by decide) (by decide),
   C9_unknown_attr_asymmetry.2.2 ⟨"f", ⟨"integer", false⟩, "", false, none, 0, false⟩
      "owner" (.str "me") [] (by decide) (by decide) (by decide) (by decide) (by decide)⟩

/-!
C10 — defaults are stored without a type check for the six scalar types and
only cast (partially) at render time.
-/

/-- C10: the field builder stores a `default` attribute value of any
dynamic type unchanged for the integer, bigint, varchar, boolean,
double-precision and text types; concretely, an integer column whose
default was supplied as the string `18` builds successfully, and rendering
the resulting model crashes on the `f.Default.(int)` type assertion instead
of producing output. -/
theorem C10_default_cast_partial :
    (∀ (f : Field) (v : Value),
        (f.Ty.T = DataTypeVarchar ∨ f.Ty.T = DataTypeInteger ∨ f.Ty.T = DataTypeBigint
          ∨ f.Ty.T = DataTypeBool ∨ f.Ty.T = DataTypeDouble ∨ f.Ty.T = DataTypeText) →
        parseFieldAttr f ("default", v) = .ok { f with Default := some v })
    ∧ parseField [] (.map [("age", .str "i32"), ("default", .str "18")])
        = .ok ⟨"age", ⟨"integer", false⟩, "", false, some (.str "18"), 0, false⟩
    ∧ render ⟨[], [⟨"main", "person", "",
        [⟨"age", ⟨"integer", false⟩, "", false, some (.str "18"), 0, false⟩], [], []⟩]⟩
        = .error .crash := by
  refine ⟨?_, rfl, rfl⟩
  intro f v h
  unfold parseFieldAttr
  rw [if_pos rfl, if_pos h]

/-- C10 witness: the unchecked storage applied to an integer field and a
boolean dynamic value. -/
theorem C10_witness :
    parseFieldAttr ⟨"n", ⟨"integer", false⟩, "", false, none, 0, false⟩ ("default", .bool true)
      = .ok ⟨"n", ⟨"integer", false⟩, "", false, some (.bool true), 0, false⟩ :=
  C10_default_cast_partial.1 ⟨"n", ⟨"integer", false⟩, "", false, none, 0, false⟩
    (.bool true) (Or.inr (Or.inl rfl))

/-!
C1 — two-pass hoisting.  Pass 1 builds every enumeration of the document
before any table is built, so a table field's type token naming a declared
enumeration resolves to an enum reference — unless the token is one of the
fixed built-in tokens, which shadow enumeration names in `parseDataType`.
-/

/-- One step of the enum attribute loop never changes the name. -/
theorem parseEnumAttr_name {e g : Enum} {a : String × Value}
    (h : parseEnumAttr e a = .ok g) : g.Name = e.Name := by
  unfold parseEnumAttr at h
  split at h
  · split at h
    · exact absurd h (by simp)
    · injection h with h; rw [← h]
  · split at h
    · split at h
      · exact absurd h (by simp)
      · split at h
        · exact absurd h (by simp)
        · split at h
          · exact absurd h (by simp)
          · injection h with h; rw [← h]
    · injection h with h; rw [← h]

/-- The enum attribute loop never changes the name. -/
theorem parseEnumAttrs_name : ∀ {attrs : List (String × Value)} {e g : Enum},
    parseEnumAttrs e attrs = .ok g → g.Name = e.Name := by
  intro attrs
  induction attrs with
  | nil => intro e g h; injection h with h; rw [← h]
  | cons a rest ih =>
    intro e g h
    unfold parseEnumAttrs at h
    split at h
    · exact absurd h (by simp)
    · rename_i e2 ha
      rw [ih h, parseEnumAttr_name ha]

/-- A built enumeration carries the entry key as its name. -/
theorem parseEnum_name {s : String × Value} {e : Enum}
    (h : parseEnum s = .ok e) : e.Name = s.1 := by
  unfold parseEnum at h
  split at h
  · exact absurd h (by simp)
  · exact parseEnumAttrs_name h

/-- Pass 1 only ever appends: everything in the accumulator survives. -/
theorem parseEnums_sub : ∀ {raw : List (String × Value)} {acc enums : List Enum},
    parseEnums raw acc = .ok enums → ∀ x ∈ acc, x ∈ enums := by
  intro raw
  induction raw with
  | nil => intro acc enums h x hx; injection h with h; exact h ▸ hx
  | cons s rest ih =>
    intro acc enums h x hx
    unfold parseEnums at h
    split at h
    · exact absurd h (by simp)
    · exact ih h x hx
    · split at h
      · split at h
        · exact absurd h (by simp)
        · exact ih h x (List.mem_append_left _ hx)
      · exact ih h x hx

/-- An entry whose first attribute is `type: enum` is selected by pass 1. -/
theorem entryType_of_declaresEnum {n : String} {v : Value} (h : declaresEnum v = true) :
    entryType (n, v) = .ok (some "enum") := by
  unfold declaresEnum at h
  split at h
  · rfl
  · exact absurd h (by simp)

/-- Every enum entry of the document contributes, under its own name, to a
successful pass 1. -/
theorem parseEnums_mem : ∀ {raw : List (String × Value)} {acc enums : List Enum}
    {name : String} {v : Value},
    parseEnums raw acc = .ok enums → (name, v) ∈ raw → declaresEnum v = true →
    ∃ e ∈ enums, e.Name = name := by
  intro raw
  induction raw with
  | nil => intro acc enums name v _ hm _; exact absurd hm (by simp)
  | cons s rest ih =>
    intro acc enums name v h hm hd
    rcases List.mem_cons.mp hm with heq | htl
    · subst heq
      unfold parseEnums at h
      rw [entryType_of_declaresEnum hd] at h
      replace h : (match parseEnum ((name, v) : String × Value) with
          | Except.error er => (Except.error er : Except PErr (List Enum))
          | Except.ok e => parseEnums rest (acc ++ [e])) = Except.ok enums := h
      split at h
      · exact absurd h (by simp)
      · rename_i e he
        exact ⟨e, parseEnums_sub h e (List.mem_append_right _ (List.mem_singleton.mpr rfl)),
               parseEnum_name he⟩
    · unfold parseEnums at h
      split at h
      · exact absurd h (by simp)
      · exact ih h htl hd
      · split at h
        · split at h
          · exact absurd h (by simp)
          · exact ih h htl hd
        · exact ih h htl hd

/-- A token that is not a fixed built-in and names a built enumeration
resolves to an enum reference. -/
theorem parseDataType_enumRef {enums : List Enum} {name : String}
    (hnb : name ∉ fixedTokens) (hmem : ∃ e ∈ enums, e.Name = name) :
    parseDataType enums name = .ok ⟨name, true⟩ := by
  simp only [fixedTokens, List.mem_cons, List.not_mem_nil, or_false, not_or] at hnb
  obtain ⟨h1, h2, h3, h4, h5, h6, h7, h8, h9, h10⟩ := hnb
  unfold parseDataType
  rw [if_neg h1, if_neg h2, if_neg h3, if_neg h4, if_neg h5, if_neg h6, if_neg h7]
  rw [if_neg (by rintro (h | h | h) <;> [exact h8 h; exact h9 h; exact h10 h])]
  rw [if_pos ?_]
  obtain ⟨e, he, hename⟩ := hmem
  exact List.any_eq_true.mpr ⟨e, he, by simpa using hename⟩

/-- C1 counterexample: an enumeration named `i32` is declared in the
document and a table field uses the token `i32`; decoding succeeds but
resolves the token to the built-in integer type, not to an enum-reference
DataType. -/
theorem C1_counterexample :
    parse [("i32", .map [("type", .str "enum"), ("value", .list [.str "a"])]),
           ("tbl", .map [("type", .str "table"), ("db", .str "main"),
                         ("fields", .list [.map [("x", .str "i32")]])])]
      = .ok ⟨[⟨"i32", "", ["a"]⟩],
             [⟨"main", "tbl", "", [⟨"x", ⟨"integer", false⟩, "", false, none, 0, false⟩], [], []⟩]⟩
    ∧ (Typ.mk "integer" false).IsEnum = false := ⟨rfl, rfl⟩

/-- C1 (amended): for every document whose first pass succeeds, a type
token that names an enumeration declared anywhere in the document — before
or after the table — and that is not one of the fixed built-in tokens
resolves to an enum-reference DataType, because all enumeration entries are
built in pass 1 before any table entry is built in pass 2. -/
theorem C1_two_pass_hoisting :
    ∀ (raw : List (String × Value)) (enums : List Enum) (name : String) (v : Value),
      parseEnums raw [] = .ok enums → (name, v) ∈ raw → declaresEnum v = true →
      name ∉ fixedTokens → parseDataType enums name = .ok ⟨name, true⟩ :=
  fun _ _ _ _ h hm hd hnb => parseDataType_enumRef hnb (parseEnums_mem h hm hd)

/-- C1 witness: the enumeration is declared after a table entry, pass 1
still collects it and the token resolves to an enum reference; the full
two-pass decode of a forward-referencing document succeeds end to end. -/
theorem C1_witness :
    parseEnums [("t1", .map [("type", .str "table")]),
                ("status", .map [("type", .str "enum"), ("value", .list [.str "a"])])] []
      = .ok [⟨"status", "", ["a"]⟩]
    ∧ parseDataType [⟨"status", "", ["a"]⟩] "status" = .ok ⟨"status", true⟩
    ∧ parse [("tbl", .map [("type", .str "table"), ("db", .str "m"),
                           ("fields", .list [.map [("s", .str "status")]])]),
             ("status", .map [("type", .str "enum"), ("value", .list [.str "a"])])]
      = .ok ⟨[⟨"status", "", ["a"]⟩],
             [⟨"m", "tbl", "", [⟨"s", ⟨"status", true⟩, "", false, none, 0, false⟩], [], []⟩]⟩ :=
  ⟨rfl,
   C1_two_pass_hoisting
     [("t1", .map [("type", .str "table")]),
      ("status", .map [("type", .str "enum"), ("value", .list [.str "a"])])]
     [⟨"status", "", ["a"]⟩] "status"
     (.map [("type", .str "enum"), ("value", .list [.str "a"])])
     rfl
     (List.mem_cons_of_mem _ (List.mem_cons_self _ _))
     rfl (by decide),
   rfl⟩

/-!
C7 — blank-line separation of rendered entries.  The separator guard in
both render loops tests the index in the declaration list, not the index
among rendered entries, so a skipped entry (zero values / zero fields) in
first position makes a blank line appear before the first rendered entry.
-/

/-- From a positive declaration index, every rendered enum entry is
preceded by the separating newline — skipped enumerations may sit anywhere
in the list. -/
theorem renderEnumsFrom_pos : ∀ (es : List Enum) (g : String) (i : Nat), 0 < i →
    renderEnumsFrom i es g = g ++ joinAllSep (renderedEnumTexts es) := by
  intro es
  induction es with
  | nil =>
    intro g i _
    simp [renderEnumsFrom, renderedEnumTexts, joinAllSep]
  | cons e rest ih =>
    intro g i hi
    unfold renderEnumsFrom
    by_cases he : e.Values = []
    · rw [if_pos he]
      rw [ih g (i + 1) (Nat.succ_pos i)]
      simp [renderedEnumTexts, List.filter_cons, he]
    · have he2 : e.Values.isEmpty = false := by simpa using he
      rw [if_neg he, if_pos hi]
      rw [ih _ (i + 1) (Nat.succ_pos i)]
      simp [renderedEnumTexts, List.filter_cons, he2, joinAllSep, String.append_assoc]

/-- From a positive declaration index, every rendered table entry is
preceded by the separating newline — skipped tables may sit anywhere in the
list. -/
theorem renderTablesFrom_pos : ∀ (ts : List Table) (g : String) (i : Nat) (ss : List String),
    0 < i → renderedTableEntries ts = .ok ss →
    renderTablesFrom i ts g = .ok (g ++ joinAllSep ss) := by
  intro ts
  induction ts with
  | nil =>
    intro g i ss _ h
    injection h with h
    rw [← h]
    simp [renderTablesFrom, joinAllSep]
  | cons t rest ih =>
    intro g i ss hi h
    unfold renderedTableEntries at h
    unfold renderTablesFrom
    by_cases he : t.Fields.isEmpty
    · rw [if_pos he] at h ⊢
      exact ih g (i + 1) ss (Nat.succ_pos i) h
    · rw [if_neg he] at h ⊢
      split at h
      · exact absurd h (by simp)
      · rename_i s hs
        split at h
        · exact absurd h (by simp)
        · rename_i ss2 hss
          injection h with h
          rw [if_pos hi]
          rw [ih _ (i + 1) ss2 (Nat.succ_pos i) hss]
          rw [← h]
          simp [joinAllSep, String.append_assoc]

/-- C7 counterexample: when the first declared enumeration has zero values
and is skipped, the rendered output carries a blank line before the first
rendered entry (three consecutive newlines after the section header),
instead of the claimed no-blank-line output. -/
theorem C7_counterexample :
    render ⟨[⟨"empty", "", []⟩, ⟨"color", "", ["red"]⟩], []⟩
      = .ok "-- Auto generated by pgen, DO NOT MODIFY.\n\n-- Enums\n\n\ncreate type color as enum('red');\n\n-- Tables\n\n"
    ∧ ("-- Auto generated by pgen, DO NOT MODIFY.\n\n-- Enums\n\n\ncreate type color as enum('red');\n\n-- Tables\n\n" : String)
      ≠ "-- Auto generated by pgen, DO NOT MODIFY.\n\n-- Enums\n\ncreate type color as enum('red');\n\n-- Tables\n\n" :=
  ⟨rfl, by decide⟩

/-- C7 (amended): rendered entries appear in declaration order with exactly
one blank line between consecutive rendered entries — skipped entries
(enumerations with zero values, tables with zero fields) anywhere in the
list do not disturb this — and no blank line before the first rendered
entry, provided no skipped entry precedes it (first declared entry
rendered); when the first declared entry is skipped, the loop restarts at
index one and every later rendered entry, the first included, is preceded
by the separating newline, a spurious leading blank line, because the
separator guard tests the declaration index. -/
theorem C7_blank_line_separation :
    (∀ (es : List Enum) (g : String) (i : Nat), 0 < i →
        renderEnumsFrom i es g = g ++ joinAllSep (renderedEnumTexts es))
    ∧ (∀ (e : Enum) (rest : List Enum) (g : String), e.Values ≠ [] →
        renderEnumsFrom 0 (e :: rest) g = g ++ specSeparated (renderedEnumTexts (e :: rest)))
    ∧ (∀ (e : Enum) (rest : List Enum) (g : String), e.Values = [] →
        renderEnumsFrom 0 (e :: rest) g = g ++ joinAllSep (renderedEnumTexts rest))
    ∧ (∀ (ts : List Table) (g : String) (i : Nat) (ss : List String), 0 < i →
        renderedTableEntries ts = .ok ss →
        renderTablesFrom i ts g = .ok (g ++ joinAllSep ss))
    ∧ (∀ (t : Table) (rest : List Table) (g : String) (ss : List String), t.Fields ≠ [] →
        renderedTableEntries (t :: rest) = .ok ss →
        renderTablesFrom 0 (t :: rest) g = .ok (g ++ specSeparated ss))
    ∧ (∀ (t : Table) (rest : List Table) (g : String) (ss : List String), t.Fields = [] →
        renderedTableEntries rest = .ok ss →
        renderTablesFrom 0 (t :: rest) g = .ok (g ++ joinAllSep ss)) := by
  refine ⟨fun es g i hi => renderEnumsFrom_pos es g i hi, ?_, ?_,
          fun ts g i ss hi h => renderTablesFrom_pos ts g i ss hi h, ?_, ?_⟩
  · intro e rest g he
    have he2 : e.Values.isEmpty = false := by simpa using he
    unfold renderEnumsFrom
    rw [if_neg he, if_neg (by decide : ¬(0 > 0))]
    rw [renderEnumsFrom_pos rest _ 1 Nat.one_pos]
    simp [renderedEnumTexts, List.filter_cons, he2, specSeparated, String.append_assoc]
  · intro e rest g he
    unfold renderEnumsFrom
    rw [if_pos he]
    exact renderEnumsFrom_pos rest g 1 Nat.one_pos
  · intro t rest g ss ht h
    have hne : ¬(t.Fields.isEmpty = true) := by simpa using ht
    unfold renderedTableEntries at h
    rw [if_neg hne] at h
    split at h
    · exact absurd h (by simp)
    · rename_i s hs
      split at h
      · exact absurd h (by simp)
      · rename_i ss2 hss
        injection h with h
        unfold renderTablesFrom
        rw [if_neg hne]
        rw [hs]
        dsimp only
        rw [if_neg (by decide : ¬(0 > 0))]
        rw [renderTablesFrom_pos rest _ 1 ss2 Nat.one_pos hss]
        rw [← h]
        simp [specSeparated, joinAllSep, String.append_assoc]
  · intro t rest g ss ht h
    unfold renderTablesFrom
    rw [if_pos (by simp [ht] : t.Fields.isEmpty = true)]
    exact renderTablesFrom_pos rest g 1 ss Nat.one_pos h

/-- C7 witness: the separation law applied to an enum list whose middle
entry is skipped (one blank line between the two rendered entries, none
before the first), to a table list with a trailing skipped table, and to an
enum list whose first entry is skipped (spurious leading blank line). -/
theorem C7_witness :
    renderEnumsFrom 0 [⟨"a", "", ["x"]⟩, ⟨"mid", "", []⟩, ⟨"b", "", ["y"]⟩] "H"
      = "H" ++ specSeparated
          (renderedEnumTexts [⟨"a", "", ["x"]⟩, ⟨"mid", "", []⟩, ⟨"b", "", ["y"]⟩])
    ∧ renderTablesFrom 0
        [⟨"m", "t", "", [⟨"c", ⟨"text", false⟩, "", true, none, 0, false⟩], [], []⟩,
         ⟨"m", "t2", "", [], [], []⟩] "G"
      = .ok ("G" ++ specSeparated ["create table if not exists t (\n  c text\n);\n"])
    ∧ renderEnumsFrom 0 [⟨"front", "", []⟩, ⟨"b", "", ["y"]⟩] "H"
      = "H" ++ joinAllSep (renderedEnumTexts [⟨"b", "", ["y"]⟩]) :=
  ⟨C7_blank_line_separation.2.1 ⟨"a", "", ["x"]⟩ [⟨"mid", "", []⟩, ⟨"b", "", ["y"]⟩]
     "H" (by decide),
   C7_blank_line_separation.2.2.2.2.1
     ⟨"m", "t", "", [⟨"c", ⟨"text", false⟩, "", true, none, 0, false⟩], [], []⟩
     [⟨"m", "t2", "", [], [], []⟩] "G"
     ["create table if not exists t (\n  c text\n);\n"] (by simp) rfl,
   C7_blank_line_separation.2.2.1 ⟨"front", "", []⟩ [⟨"b", "", ["y"]⟩] "H" rfl⟩

/-!
C8 — determinism of rendering.  Rendering is a pure function of the
Metadata; the `gen` buffer is only ever appended to, so the text a render
produces does not depend on what was in the buffer before (and two runs on
the same Metadata agree byte for byte).
-/

/-- The enum loop only appends: its output factors through an empty
buffer. -/
theorem renderEnumsFrom_append : ∀ (es : List Enum) (i : Nat) (g : String),
    renderEnumsFrom i es g = g ++ renderEnumsFrom i es "" := by
  intro es
  induction es with
  | nil => intro i g; simp [renderEnumsFrom]
  | cons e rest ih =>
    intro i g
    unfold renderEnumsFrom
    by_cases he : e.Values = []
    · rw [if_pos he, if_pos he]
      exact ih (i + 1) g
    · rw [if_neg he, if_neg he]
      by_cases hi : i > 0
      · rw [if_pos hi, if_pos hi]
        rw [ih (i + 1) ((g ++ "\n") ++ renderEnumEntry e),
            ih (i + 1) (("" ++ "\n") ++ renderEnumEntry e)]
        simp [String.append_assoc]
      · rw [if_neg hi, if_neg hi]
        rw [ih (i + 1) (g ++ renderEnumEntry e), ih (i + 1) ("" ++ renderEnumEntry e)]
        simp [String.append_assoc]

/-- The table loop only appends: its output factors through an empty
buffer. -/
theorem renderTablesFrom_append : ∀ (ts : List Table) (i : Nat) (g : String),
    renderTablesFrom i ts g = (renderTablesFrom i ts "").map (fun s => g ++ s) := by
  intro ts
  induction ts with
  | nil => intro i g; simp [renderTablesFrom, Except.map]
  | cons t rest ih =>
    intro i g
    unfold renderTablesFrom
    by_cases he : t.Fields.isEmpty
    · simp only [he, if_true]
      exact ih (i + 1) g
    · simp only [he, Bool.false_eq_true, if_false]
      cases hr : renderTableEntry t with
      | error er => simp [Except.map]
      | ok s =>
        dsimp only
        rw [ih (i + 1) ((if i > 0 then g ++ "\n" else g) ++ s),
            ih (i + 1) ((if i > 0 then "" ++ "\n" else "") ++ s)]
        cases renderTablesFrom (i + 1) rest "" with
        | error er => simp [Except.map]
        | ok s2 =>
          by_cases hi : i > 0
          · simp [hi, Except.map, String.append_assoc]
          · simp [hi, Except.map, String.append_assoc]

/-- C8: rendering is deterministic — two runs of `render` on the same
Metadata that both succeed produce the same text — and the underlying
buffer discipline is append-only: what either render loop emits is
independent of the buffer contents it starts from. -/
theorem C8_render_deterministic :
    (∀ (data : Metadata) (s1 s2 : String),
        render data = .ok s1 → render data = .ok s2 → s1 = s2)
    ∧ (∀ (i : Nat) (es : List Enum) (g : String),
        renderEnumsFrom i es g = g ++ renderEnumsFrom i es "")
    ∧ (∀ (i : Nat) (ts : List Table) (g : String),
        renderTablesFrom i ts g = (renderTablesFrom i ts "").map (fun s => g ++ s)) := by
  refine ⟨?_, fun i es g => renderEnumsFrom_append es i g,
          fun i ts g => renderTablesFrom_append ts i g⟩
  intro data s1 s2 h1 h2
  rw [h1] at h2
  injection h2

/-- C8 witness: two renders of a concrete Metadata agree. -/
theorem C8_witness :
    ("-- Auto generated by pgen, DO NOT MODIFY.\n\n-- Enums\n\n\n-- Tables\n\n" : String)
      = "-- Auto generated by pgen, DO NOT MODIFY.\n\n-- Enums\n\n\n-- Tables\n\n" :=
  C8_render_deterministic.1 ⟨[], []⟩ _ _ rfl rfl

end Pgen
